import Mathlib

/-!
Verification development for the resume information-extraction pipeline of
src/utils/resume_parser.py (class ResumeParser, methods parse_resume and
extract_information).

Modelling conventions:
* Text is a list of characters; Python slicing, str.lower, str.strip,
  str.find and the substring test s1 in s2 are modelled character by
  character (ASCII, which covers every input used in the theorems below).
* The regular expressions at lines 72, 77, 138 and 190 of the source are
  hand-compiled to matchers with the backtracking preference order of the
  Python re module: alternatives left to right, greedy quantifiers longest
  first, leftmost match wins; re.findall and re.finditer are a left-to-right
  scan that resumes after each match.
* The spaCy entity tagger is an external component; its output doc.ents is
  passed in explicitly as a list of entities (text, label, character span).
* The optional RAG stage calls external services that can fail; the outcome
  of the stage (success of index construction and the three query responses,
  each either a response string or a raised exception) is passed in as a
  RagEnv value; the field use_rag of the parser is modelled by passing
  none or some env.
* Python set objects are modelled as lists without duplicates kept in
  insertion order; every theorem that depends on order-independence is
  stated up to set (Finset) equality.
-/

/-- Characters of a string literal, used to write concrete texts. -/
def str (s : String) : List Char := s.data

/-- Python whitespace for str.strip and the regex class backslash-s
(ASCII: space, tab, newline, carriage return, vertical tab, form feed). -/
def isSpaceC (c : Char) : Bool :=
  c = ' ' || c = '\t' || c = '\n' || c = '\r' || c = Char.ofNat 11 || c = Char.ofNat 12

/-- str.lower, per character (ASCII). -/
def lowerL (l : List Char) : List Char := l.map Char.toLower

/-- str.strip(): remove leading and trailing whitespace. -/
def stripL (l : List Char) : List Char :=
  ((l.dropWhile isSpaceC).reverse.dropWhile isSpaceC).reverse

/-- Python slicing text[a:b] (for 0 &le; a &le; b). -/
def sliceL (s : List Char) (a b : Nat) : List Char := (s.take b).drop a

/-- Character at an index, if in range. -/
def charAt (s : List Char) (i : Nat) : Option Char := s[i]?

/-- The substring test sub in hay of Python. -/
def containsSub (hay sub : List Char) : Bool := decide (sub <:+: hay)

/-- Regex word character (class backslash-w, ASCII). -/
def isWordChar (c : Char) : Bool := c.isAlpha || c.isDigit || c = '_'

/-- Whether the character at index i exists and is a word character. -/
def isWordAt (s : List Char) (i : Nat) : Bool :=
  match charAt s i with
  | some c => isWordChar c
  | none => false

/-- Whether the character before index i exists and is a word character. -/
def prevWordAt (s : List Char) (i : Nat) : Bool :=
  if i = 0 then false else isWordAt s (i - 1)

/-- The regex word-boundary assertion at position i. -/
def wordBoundary (s : List Char) (i : Nat) : Bool :=
  prevWordAt s i != isWordAt s i

/-- Length of the maximal run of characters satisfying cls at the head. -/
def runLen (cls : Char → Bool) : List Char → Nat
  | [] => 0
  | c :: cs => if cls c then runLen cls cs + 1 else 0

/-- Length of the maximal run of characters satisfying cls starting at i. -/
def runFrom (cls : Char → Bool) (s : List Char) (i : Nat) : Nat :=
  runLen cls (s.drop i)

/-- Try f on k, k-1, ..., 1 and return the first success: the backtracking
order of a greedy counted quantifier. -/
def firstK (f : Nat → Option Nat) : Nat → Option Nat
  | 0 => none
  | k + 1 => f (k + 1) <|> firstK f k

/-- Whether the literal lit occurs at index i of s. -/
def litAt (s lit : List Char) (i : Nat) : Bool := lit.isPrefixOf (s.drop i)

/-- Whether n digit characters occur at indices i, ..., i+n-1. -/
def digitsAt (s : List Char) (i : Nat) : Nat → Bool
  | 0 => true
  | n + 1 =>
    (match charAt s i with
     | some c => c.isDigit
     | none => false) && digitsAt s (i + 1) n

/-- str.find(sub, start): first index at or after the given one where sub
occurs, as an Option (None for the -1 of Python). -/
def findFromAux (s sub : List Char) : Nat → Nat → Option Nat
  | 0, _ => none
  | fuel + 1, i =>
    if s.length < i then none
    else if sub.isPrefixOf (s.drop i) then some i
    else findFromAux s sub fuel (i + 1)

/-- str.find(sub, start) of Python, with None for -1. -/
def pyFind (s sub : List Char) (start : Nat) : Option Nat :=
  findFromAux s sub (s.length + 1) start

/-- Adding an element to a Python set, modelled as an insertion-ordered
duplicate-free list. -/
def setInsert (acc : List (List Char)) (x : List Char) : List (List Char) :=
  if x ∈ acc then acc else acc ++ [x]

/-- list(set(l)): the distinct elements of l (first occurrences kept). -/
def pyDedup (l : List (List Char)) : List (List Char) := l.foldl setInsert []

/-- re.split on a character class / str.split on a separator: consecutive
separators produce empty pieces, as in Python. -/
def splitAux (sep : Char → Bool) : List Char → List Char → List (List Char)
  | [], cur => [cur.reverse]
  | c :: cs, cur =>
    if sep c then cur.reverse :: splitAux sep cs []
    else splitAux sep cs (c :: cur)

/-- Split a list at every character satisfying sep. -/
def pySplit (sep : Char → Bool) (l : List Char) : List (List Char) :=
  splitAux sep l []

/-! ### The email regex (source line 72)

Pattern: word boundary, one or more of [A-Za-z0-9._%+-], the at sign, one or
more of [A-Za-z0-9.-], a literal dot, two or more of [A-Z|a-z], word
boundary. -/

/-- Character class of the local part of the email pattern. -/
def emailLocalClass (c : Char) : Bool :=
  c.isAlpha || c.isDigit || c = '.' || c = '_' || c = '%' || c = '+' || c = '-'

/-- Character class of the domain part of the email pattern. -/
def emailDomClass (c : Char) : Bool :=
  c.isAlpha || c.isDigit || c = '.' || c = '-'

/-- Character class of the top-level-domain part, [A-Z|a-z] (the bar is a
literal member of the class in the source pattern). -/
def emailTldClass (c : Char) : Bool := c.isAlpha || c = '|'

/-- Match the trailing part: two or more TLD characters then a word
boundary, greedily; returns the end position. -/
def emailTld (s : List Char) (r : Nat) : Option Nat :=
  firstK
    (fun j => if 2 ≤ j ∧ wordBoundary s (r + j) then some (r + j) else none)
    (runFrom emailTldClass s r)

/-- Given the position q after the at sign and a candidate domain length k,
require a dot and then the TLD part. -/
def emailDomTail (s : List Char) (q k : Nat) : Option Nat :=
  if charAt s (q + k) = some '.' then emailTld s (q + k + 1) else none

/-- The email matcher at position p; returns the match length. -/
def matchEmailAt (s : List Char) (p : Nat) : Option Nat :=
  if wordBoundary s p then
    let m1 := runFrom emailLocalClass s p
    if 1 ≤ m1 ∧ charAt s (p + m1) = some '@' then
      match firstK (fun k => emailDomTail s (p + m1 + 1) k)
          (runFrom emailDomClass s (p + m1 + 1)) with
      | some e => some (e - p)
      | none => none
    else none
  else none

/-! ### The phone regex (source line 77)

Pattern: word boundary, optional plus and one or two digits and optional
whitespace, optional opening parenthesis, three digits, optional closing
parenthesis, optional separator from [whitespace.-], three digits, optional
separator, four digits, word boundary. -/

/-- The separator class [whitespace.-] of the phone pattern. -/
def phoneSep (c : Char) : Bool := isSpaceC c || c = '.' || c = '-'

/-- Final four digits then the closing word boundary; returns end position. -/
def phoneEnd (s : List Char) (i : Nat) : Option Nat :=
  if digitsAt s i 4 ∧ wordBoundary s (i + 4) then some (i + 4) else none

/-- Second digit triple, optional separator, then the final part. -/
def phoneD3b (s : List Char) (i : Nat) : Option Nat :=
  if digitsAt s i 3 then
    (if (match charAt s (i + 3) with
         | some c => phoneSep c
         | none => false) then phoneEnd s (i + 4) else none) <|> phoneEnd s (i + 3)
  else none

/-- Optional separator after the first triple, then the rest. -/
def phoneSepOpt (s : List Char) (i : Nat) : Option Nat :=
  (if (match charAt s i with
       | some c => phoneSep c
       | none => false) then phoneD3b s (i + 1) else none) <|> phoneD3b s i

/-- Optional closing parenthesis after the first triple, then the rest. -/
def phoneAfter3 (s : List Char) (i : Nat) : Option Nat :=
  (if charAt s i = some ')' then phoneSepOpt s (i + 1) else none) <|> phoneSepOpt s i

/-- Optional opening parenthesis, first digit triple, then the rest. -/
def phoneCore (s : List Char) (i : Nat) : Option Nat :=
  (if charAt s i = some '(' then
     (if digitsAt s (i + 1) 3 then phoneAfter3 s (i + 4) else none)
   else none)
  <|> (if digitsAt s i 3 then phoneAfter3 s (i + 3) else none)

/-- Optional whitespace inside the country-code group, then the core. -/
def phoneWs (s : List Char) (i : Nat) : Option Nat :=
  (if (match charAt s i with
       | some c => isSpaceC c
       | none => false) then phoneCore s (i + 1) else none) <|> phoneCore s i

/-- The optional country-code group: plus, one or two digits (two tried
first), optional whitespace. -/
def phonePlus (s : List Char) (i : Nat) : Option Nat :=
  if charAt s i = some '+' then
    (if digitsAt s (i + 1) 2 then phoneWs s (i + 3) else none)
    <|> (if digitsAt s (i + 1) 1 then phoneWs s (i + 2) else none)
  else none

/-- The phone matcher at position p; returns the match length. -/
def matchPhoneAt (s : List Char) (p : Nat) : Option Nat :=
  if wordBoundary s p then
    match phonePlus s p <|> phoneCore s p with
    | some e => some (e - p)
    | none => none
  else none

/-! ### Scanning: re.findall / re.finditer -/

/-- The scan loop of re.findall and re.finditer: try the matcher at each
position from left to right, resuming after the end of each match.  The
fuel argument only bounds the recursion; s.length + 1 always suffices
because every matcher used here consumes at least one character. -/
def scanAux (m : List Char → Nat → Option Nat) (s : List Char) :
    Nat → Nat → List (Nat × Nat)
  | 0, _ => []
  | fuel + 1, pos =>
    if s.length ≤ pos then []
    else
      match m s pos with
      | some L => (pos, L) :: scanAux m s fuel (pos + L)
      | none => scanAux m s fuel (pos + 1)

/-- All matches of a matcher in a text, as (position, length) pairs in
document order. -/
def findAllMatches (m : List Char → Nat → Option Nat) (s : List Char) :
    List (Nat × Nat) :=
  scanAux m s (s.length + 1) 0

/-- re.findall of the email pattern: matched substrings in document order. -/
def findallEmail (s : List Char) : List (List Char) :=
  (findAllMatches matchEmailAt s).map (fun pl => sliceL s pl.1 (pl.1 + pl.2))

/-- re.findall of the phone pattern: matched substrings in document order. -/
def findallPhone (s : List Char) : List (List Char) :=
  (findAllMatches matchPhoneAt s).map (fun pl => sliceL s pl.1 (pl.1 + pl.2))


/-! ### The education regex (source line 138)

Pattern, an alternation tried left to right: either a degree keyword,
whitespace, of or in, whitespace, letters and whitespace; or letters and
whitespace ending in the literal University; or the literal College; or
the literal Institute. -/

/-- The class [A-Za-z and whitespace] of the education pattern. -/
def classLS (c : Char) : Bool := c.isAlpha || isSpaceC c

/-- The degree-keyword alternatives, in source order. -/
def degreeAlts : List (List Char) :=
  [str "Bachelor", str "Master", str "PhD", str "B.S.", str "M.S.",
   str "M.B.A.", str "B.A.", str "B.Sc.", str "M.Sc.", str "B.Tech", str "M.Tech"]

/-- Try literal alternatives in order at position p, each continued by k:
the left-to-right alternation of the re module. -/
def tryLits (s : List Char) (k : Nat → Option Nat) :
    List (List Char) → Nat → Option Nat
  | [], _ => none
  | a :: rest, p =>
    (if litAt s a p then k (p + a.length) else none) <|> tryLits s k rest p

/-- Trailing part of the first alternative: whitespace then one or more
letters or whitespace, both greedy; returns the end position. -/
def eduTailLS (s : List Char) (r : Nat) : Option Nat :=
  firstK
    (fun j =>
      let m := runFrom classLS s (r + j)
      if 1 ≤ m then some (r + j + m) else none)
    (runFrom isSpaceC s r)

/-- The literal of or in, then the trailing part. -/
def eduOfIn (s : List Char) (r : Nat) : Option Nat :=
  (if litAt s (str "of") r then eduTailLS s (r + 2) else none)
  <|> (if litAt s (str "in") r then eduTailLS s (r + 2) else none)

/-- Whitespace (greedy) then of or in, after the degree keyword. -/
def eduWsOfIn (s : List Char) (q : Nat) : Option Nat :=
  firstK (fun j => eduOfIn s (q + j)) (runFrom isSpaceC s q)

/-- First alternative of the education pattern. -/
def eduAlt1 (s : List Char) (p : Nat) : Option Nat :=
  tryLits s (fun q => eduWsOfIn s q) degreeAlts p

/-- Second alternative: letters and whitespace ending in University. -/
def eduAlt2 (s : List Char) (p : Nat) : Option Nat :=
  firstK
    (fun k => if litAt s (str "University") (p + k) then some (p + k + 10) else none)
    (runFrom classLS s p)

/-- The education matcher at position p; returns the match length. -/
def matchEduAt (s : List Char) (p : Nat) : Option Nat :=
  match eduAlt1 s p <|> eduAlt2 s p
      <|> (if litAt s (str "College") p then some (p + 7) else none)
      <|> (if litAt s (str "Institute") p then some (p + 9) else none) with
  | some e => some (e - p)
  | none => none

/-- re.findall of the education pattern, in document order. -/
def findallEdu (s : List Char) : List (List Char) :=
  (findAllMatches matchEduAt s).map (fun pl => sliceL s pl.1 (pl.1 + pl.2))

/-! ### The date-range regex (source line 190) -/

/-- The separator class [-whitespace] of the date pattern. -/
def dateSep (c : Char) : Bool := c = '-' || isSpaceC c

/-- Month-name alternatives of the date pattern, in source order. -/
def monthAlts : List (List Char) :=
  [str "Jan", str "January", str "Feb", str "February", str "Mar", str "March",
   str "Apr", str "April", str "May", str "Jun", str "June", str "Jul",
   str "July", str "Aug", str "August", str "Sep", str "September", str "Oct",
   str "October", str "Nov", str "November", str "Dec", str "December"]

/-- The extra alternatives of the third group of the date pattern. -/
def presentAlts : List (List Char) :=
  [str "Present", str "present", str "Current", str "current"]

/-- One or two digits, a slash, one or two digits; greedy, two digits tried
first on each side; continued by k. -/
def dateDD (s : List Char) (k : Nat → Option Nat) (p : Nat) : Option Nat :=
  (if digitsAt s p 2 ∧ charAt s (p + 2) = some '/' then
     (if digitsAt s (p + 3) 2 then k (p + 5) else none)
     <|> (if digitsAt s (p + 3) 1 then k (p + 4) else none)
   else none)
  <|> (if digitsAt s p 1 ∧ charAt s (p + 1) = some '/' then
         (if digitsAt s (p + 2) 2 then k (p + 4) else none)
         <|> (if digitsAt s (p + 2) 1 then k (p + 3) else none)
       else none)

/-- Four digits, continued by k. -/
def dateD4 (s : List Char) (k : Nat → Option Nat) (p : Nat) : Option Nat :=
  if digitsAt s p 4 then k (p + 4) else none

/-- The closing word boundary of the date pattern. -/
def dateEnd (s : List Char) (e : Nat) : Option Nat :=
  if wordBoundary s e then some e else none

/-- Third group of the date pattern: month, or digits-slash-digits, or four
digits, or Present/Current, then the closing word boundary. -/
def dateG3 (s : List Char) (p : Nat) : Option Nat :=
  tryLits s (dateEnd s) monthAlts p <|> dateDD s (dateEnd s) p
  <|> dateD4 s (dateEnd s) p <|> tryLits s (dateEnd s) presentAlts p

/-- Separators (greedy) before the third group. -/
def dateSeps2 (s : List Char) (q : Nat) : Option Nat :=
  firstK (fun j => dateG3 s (q + j)) (runFrom dateSep s q)

/-- Second group: the literal to, or a dash. -/
def dateG2 (s : List Char) (q : Nat) : Option Nat :=
  (if litAt s (str "to") q then dateSeps2 s (q + 2) else none)
  <|> (if charAt s q = some '-' then dateSeps2 s (q + 1) else none)

/-- Separators (greedy) before the second group. -/
def dateSeps1 (s : List Char) (q : Nat) : Option Nat :=
  firstK (fun j => dateG2 s (q + j)) (runFrom dateSep s q)

/-- The date-range matcher at position p; returns the match length. -/
def matchDateAt (s : List Char) (p : Nat) : Option Nat :=
  if wordBoundary s p then
    match tryLits s (dateSeps1 s) monthAlts p <|> dateDD s (dateSeps1 s) p
        <|> dateD4 s (dateSeps1 s) p with
    | some e => some (e - p)
    | none => none
  else none


/-! ### Data model -/

/-- A named-entity span of the spaCy document, as consumed by the source:
ent.text, ent.label underscore, ent.start_char, ent.end_char. -/
structure Ent where
  text : List Char
  label_ : String
  start_char : Nat
  end_char : Nat
deriving DecidableEq, Repr

/-- The contact_info dictionary; the empty string is the sentinel used by
the source for an absent value (lines 69, 74-80). -/
structure ContactInfo where
  email : List Char
  phone : List Char
deriving DecidableEq, Repr

/-- The dictionary returned by extract_information (lines 276-282). -/
structure ResumeRecord where
  raw_text : List Char
  skills : List (List Char)
  education : List (List Char)
  experience : List (List Char)
  contact_info : ContactInfo
deriving DecidableEq, Repr

/-- Outcome of one qa_chain.run call: a raised exception or a response
string. -/
inductive RagResp where
  | raised : RagResp
  | ok : List Char → RagResp
deriving DecidableEq, Repr

/-- Outcome of the external calls of the RAG stage: whether splitting,
embedding, indexing and chain construction succeed (lines 229-244), and the
outcome of each of the three qa_chain.run calls (lines 247, 256, 265). -/
structure RagEnv where
  setupOk : Bool
  skillsResp : RagResp
  eduResp : RagResp
  expResp : RagResp
deriving DecidableEq, Repr

/-! ### Keyword lists (copied verbatim from the source) -/

/-- skill_keywords (source lines 83-111), duplicates included. -/
def skill_keywords : List (List Char) :=
  [str "python", str "java", str "javascript", str "react", str "angular",
   str "vue", str "node.js",
   str "sql", str "nosql", str "mongodb", str "mysql", str "postgresql",
   str "aws", str "azure", str "gcp",
   str "docker", str "kubernetes", str "terraform", str "ci/cd",
   str "jenkins", str "git",
   str "machine learning", str "deep learning", str "nlp",
   str "computer vision", str "data science",
   str "data analysis", str "data visualization", str "tableau",
   str "power bi", str "excel",
   str "tensorflow", str "pytorch", str "keras", str "scikit-learn",
   str "pandas", str "numpy",
   str "hadoop", str "spark", str "airflow", str "kubernetes", str "docker",
   str "rest api",
   str "aws", str "azure", str "gcp", str "google cloud",
   str "cloud computing", str "serverless",
   str "lambda", str "ec2", str "s3", str "dynamodb", str "devops",
   str "ci/cd", str "jenkins", str "github actions",
   str "terraform", str "ansible", str "puppet", str "chef",
   str "kubernetes", str "docker", str "microservices",
   str "html", str "css", str "javascript", str "typescript", str "react",
   str "angular", str "vue",
   str "node.js", str "express", str "django", str "flask", str "spring",
   str "asp.net", str "php",
   str "laravel", str "ruby on rails", str "rest api", str "graphql",
   str "responsive design",
   str "sql", str "mysql", str "postgresql", str "mongodb", str "nosql",
   str "oracle", str "database design",
   str "data modeling", str "etl", str "data warehousing", str "redis",
   str "elasticsearch",
   str "project management", str "agile", str "scrum", str "jira",
   str "confluence",
   str "leadership", str "team management", str "communication",
   str "problem-solving",
   str "critical thinking", str "teamwork", str "time management",
   str "stakeholder management"]

/-- tech_indicators (source line 125). -/
def tech_indicators : List (List Char) :=
  [str "framework", str "language", str "library", str "tool",
   str "platform", str "software", str "system", str "technology"]

/-- education_keywords (source lines 135-136). -/
def education_keywords : List (List Char) :=
  [str "university", str "college", str "institute", str "school",
   str "academy", str "bachelor", str "master", str "phd", str "degree",
   str "diploma", str "certificate", str "certification"]

/-- job_title_keywords (source lines 157-161). -/
def job_title_keywords : List (List Char) :=
  [str "engineer", str "developer", str "manager", str "director",
   str "analyst", str "specialist", str "consultant", str "coordinator",
   str "administrator", str "architect", str "designer", str "scientist",
   str "head", str "lead", str "senior", str "junior", str "intern",
   str "officer"]

/-- exp_headers (source line 165). -/
def exp_headers : List (List Char) :=
  [str "experience", str "work experience", str "professional experience",
   str "employment history"]

/-- next_section_keywords (source line 175). -/
def next_section_keywords : List (List Char) :=
  [str "education", str "skills", str "projects", str "certifications",
   str "references"]

/-! ### Entity-classification steps (source lines 122-129, 143-154, 212-223) -/

/-- The lowercased 50-character context window around an entity used for
skill detection (source line 126). -/
def skillCtx (text : List Char) (ent : Ent) : List Char :=
  lowerL (sliceL text (ent.start_char - 50) (min text.length (ent.end_char + 50)))

/-- One iteration of the skill-entity loop (source lines 122-129). -/
def skillEntStep (text : List Char) (acc : List (List Char)) (ent : Ent) :
    List (List Char) :=
  if ent.label_ = "ORG" ∨ ent.label_ = "PRODUCT" then
    if tech_indicators.any (fun ind => containsSub (skillCtx text ent) ind) then
      setInsert acc ent.text
    else acc
  else acc

/-- Whether the lowercased entity text contains an education keyword
(source line 146). -/
def entIsEdu (ent : Ent) : Bool :=
  education_keywords.any (fun k => containsSub (lowerL ent.text) k)

/-- The stripped 100-character context window stored as an education
fragment (source lines 148-154). -/
def eduCtx (text : List Char) (ent : Ent) : List Char :=
  stripL (sliceL text (ent.start_char - 100) (min text.length (ent.end_char + 100)))

/-- One iteration of the education-entity loop (source lines 143-154). -/
def eduEntStep (text : List Char) (education : List (List Char)) (ent : Ent) :
    List (List Char) :=
  if ent.label_ = "ORG" ∧ entIsEdu ent then
    if education.any (fun e => containsSub e ent.text) then education
    else education ++ [eduCtx text ent]
  else education

/-- The raw 150-character context window around an entity used by the
experience fallback (source lines 216-218). -/
def expCtxRaw (text : List Char) (ent : Ent) : List Char :=
  sliceL text (ent.start_char - 150) (min text.length (ent.end_char + 150))

/-- One iteration of the entity-based experience fallback loop
(source lines 212-223). -/
def expEntStep (text : List Char) (experience : List (List Char)) (ent : Ent) :
    List (List Char) :=
  if ent.label_ = "ORG" ∧ ¬ entIsEdu ent then
    if job_title_keywords.any
        (fun t => containsSub (lowerL (expCtxRaw text ent)) t) then
      if experience.any (fun e => containsSub e ent.text) then experience
      else experience ++ [stripL (expCtxRaw text ent)]
    else experience
  else experience

/-! ### Experience-section scan (source lines 163-210) -/

/-- The start of the next section after position from_ (source lines
175-184): the least position of a next-section keyword, the text length
when none occurs. -/
def nextSectionStart (tl : List Char) (from_ : Nat) : Nat :=
  next_section_keywords.foldl
    (fun best k =>
      match pyFind tl k from_ with
      | some pos => if pos < best then pos else best
      | none => best)
    tl.length

/-- Split an experience section into job blocks at the starts of the
date-range matches (source lines 192-205). -/
def blocksFrom (sec : List Char) : List (Nat × Nat) → List (List Char)
  | [] => []
  | [(p, _)] => [stripL (sliceL sec p sec.length)]
  | (p, _) :: (q, l2) :: rest =>
    stripL (sliceL sec p q) :: blocksFrom sec ((q, l2) :: rest)

/-- The job blocks contributed by one header of exp_headers (source lines
169-205): nothing when the header does not occur or the section has no
date-range match. -/
def blocksForHeader (text : List Char) (header : List Char) :
    List (List Char) :=
  if containsSub (lowerL text) header then
    match pyFind (lowerL text) header 0 with
    | some st =>
      let sec := stripL (sliceL text st (nextSectionStart (lowerL text) (st + header.length)))
      let dms := findAllMatches matchDateAt sec
      if dms = [] then [] else blocksFrom sec dms
    | none => []
  else []

/-- experience_blocks (source lines 164-205): blocks of every header, in
header order. -/
def experience_blocks (text : List Char) : List (List Char) :=
  exp_headers.foldl (fun acc h => acc ++ blocksForHeader text h) []

/-- The experience bucket produced by the heuristic stages (source lines
207-223): the date-delimited blocks when any exist, otherwise the
entity-based fallback. -/
def heurExperience (text : List Char) (ents : List Ent) : List (List Char) :=
  if experience_blocks text = [] then ents.foldl (expEntStep text) []
  else experience_blocks text

/-! ### The RAG enhancement stage (source lines 225-274) -/

/-- Acceptance test for one RAG skill candidate (source line 252):
non-empty and shorter than 50 characters. -/
def ragSkillAccept (sk : List Char) : Bool :=
  decide (sk ≠ []) && decide (sk.length < 50)

/-- Candidate strings parsed from the skills response (source line 250):
split at comma, newline, bullet or dash, stripped, empties removed. -/
def ragSkillCands (resp : List Char) : List (List Char) :=
  ((pySplit (fun c => c = ',' || c = '\n' || c = '•' || c = '-') resp).map
    stripL).filter (fun x => x ≠ [])

/-- Candidate strings parsed from the education and experience responses
(source lines 259, 268): split at newline, stripped, empties removed. -/
def ragLineCands (resp : List Char) : List (List Char) :=
  ((pySplit (fun c => c = '\n') resp).map stripL).filter (fun x => x ≠ [])

/-- Merge of the skills response into extracted_skills (source lines
248-253). -/
def ragSkillsMerge (es : List (List Char)) (resp : List Char) :
    List (List Char) :=
  if resp ≠ [] then
    (ragSkillCands resp).foldl
      (fun acc sk => if ragSkillAccept sk then setInsert acc sk else acc) es
  else es

/-- Insertion of one education candidate (source lines 260-262). -/
def ragEduInsert (education : List (List Char)) (cand : List Char) :
    List (List Char) :=
  if cand ≠ [] ∧ ¬ education.any (fun e => containsSub e cand) then
    education ++ [cand]
  else education

/-- Merge of the education response (source lines 257-262). -/
def ragEduMerge (education : List (List Char)) (resp : List Char) :
    List (List Char) :=
  if resp ≠ [] then (ragLineCands resp).foldl ragEduInsert education
  else education

/-- Insertion of one experience candidate (source lines 269-271). -/
def ragExpInsert (experience : List (List Char)) (cand : List Char) :
    List (List Char) :=
  if cand ≠ [] ∧ 20 < cand.length ∧ ¬ experience.any (fun e => containsSub e cand) then
    experience ++ [cand]
  else experience

/-- Merge of the experience response (source lines 266-271). -/
def ragExpMerge (experience : List (List Char)) (resp : List Char) :
    List (List Char) :=
  if resp ≠ [] then (ragLineCands resp).foldl ragExpInsert experience
  else experience

/-- The whole try-block of the RAG stage (source lines 227-274) on the
state (extracted_skills, education, experience).  A failed step raises, the
exception is caught at line 273, and every mutation made before the failing
step is kept: the state reached so far is returned unchanged. -/
def ragStage (env : RagEnv)
    (st : List (List Char) × List (List Char) × List (List Char)) :
    List (List Char) × List (List Char) × List (List Char) :=
  if env.setupOk then
    match env.skillsResp with
    | .raised => st
    | .ok r1 =>
      let es := ragSkillsMerge st.1 r1
      match env.eduResp with
      | .raised => (es, st.2.1, st.2.2)
      | .ok r2 =>
        let ed := ragEduMerge st.2.1 r2
        match env.expResp with
        | .raised => (es, ed, st.2.2)
        | .ok r3 => (es, ed, ragExpMerge st.2.2 r3)
  else st

/-! ### The pipeline (source lines 43-282) -/

/-- The extracted_skills set after keyword matching and the entity loop
(source lines 114-129): the value of the list snapshot skills taken at
line 132. -/
def heurSkills (text : List Char) (ents : List Ent) : List (List Char) :=
  ents.foldl (skillEntStep text)
    (skill_keywords.foldl
      (fun acc kw =>
        if containsSub (lowerL text) (lowerL kw) then setInsert acc kw else acc)
      [])

/-- The education list after the regex pass and the entity loop (source
lines 138-154). -/
def heurEducation (text : List Char) (ents : List Ent) : List (List Char) :=
  ents.foldl (eduEntStep text) ((findallEdu text).map stripL)

/-- The state (extracted_skills, education, experience) reached by the
heuristic stages, just before the optional RAG stage. -/
def heurState (text : List Char) (ents : List Ent) :
    List (List Char) × List (List Char) × List (List Char) :=
  (heurSkills text ents, heurEducation text ents, heurExperience text ents)

/-- The optional RAG branch at line 226: skipped when self.use_rag is
false. -/
def applyRag : Option RagEnv →
    List (List Char) × List (List Char) × List (List Char) →
    List (List Char) × List (List Char) × List (List Char)
  | none, st => st
  | some env, st => ragStage env st

/-- extract_information (source lines 61-282).  The rag argument is none
when self.use_rag is false and some env when the stage runs with outcome
env.  Note that the skills key of the returned dictionary is built from the
list snapshot taken at line 132 (heurSkills), not from the extracted_skills
set the RAG stage later mutates, exactly as in the source. -/
def extract_information (text : List Char) (ents : List Ent)
    (rag : Option RagEnv) : ResumeRecord :=
  ⟨text,
   pyDedup (heurSkills text ents),
   pyDedup ((applyRag rag (heurState text ents)).2.1),
   pyDedup ((applyRag rag (heurState text ents)).2.2),
   ⟨(findallEmail text).headD [], (findallPhone text).headD []⟩⟩

/-- parse_resume (source lines 43-59): None on empty or absent input,
otherwise the extracted record. -/
def parse_resume (text : List Char) (ents : List Ent) (rag : Option RagEnv) :
    Option ResumeRecord :=
  if text = [] then none else some (extract_information text ents rag)


/-! ### Shared lemmas -/

/-- The email matcher fails at positions outside the text. -/
theorem matchEmailAt_oob (s : List Char) (p : Nat) (hge : s.length ≤ p) :
    matchEmailAt s p = none := by
  simp [matchEmailAt, runFrom, List.drop_eq_nil_of_le hge, runLen]

/-- A successful email match starts inside the text. -/
theorem matchEmailAt_pos_lt (s : List Char) (p L : Nat)
    (h : matchEmailAt s p = some L) : p < s.length := by
  by_contra hge
  push_neg at hge
  rw [matchEmailAt_oob s p hge] at h
  cases h

/-- The scan returns the leftmost match first. -/
theorem scanAux_first (m : List Char → Nat → Option Nat) (s : List Char)
    (p L : Nat) (hm : m s p = some L) (hp : p < s.length) :
    ∀ fuel pos, pos ≤ p → p < pos + fuel →
      (∀ q, pos ≤ q → q < p → m s q = none) →
      ∃ rest, scanAux m s fuel pos = (p, L) :: rest := by
  intro fuel
  induction fuel with
  | zero => intro pos h1 h2 _; omega
  | succ n ih =>
    intro pos h1 h2 h3
    have hpos : ¬ s.length ≤ pos := by omega
    by_cases hq : pos = p
    · subst hq
      refine ⟨scanAux m s n (pos + L), ?_⟩
      simp [scanAux, hpos, hm]
    · have hnone : m s pos = none := h3 pos le_rfl (by omega)
      have step : scanAux m s (n + 1) pos = scanAux m s n (pos + 1) := by
        simp [scanAux, hpos, hnone]
      rw [step]
      exact ih (pos + 1) (by omega) (by omega) (fun q hq1 hq2 => h3 q (by omega) hq2)

/-- A scan over a text without any match returns no matches. -/
theorem scanAux_none (m : List Char → Nat → Option Nat) (s : List Char)
    (h : ∀ q, q < s.length → m s q = none) :
    ∀ fuel pos, scanAux m s fuel pos = [] := by
  intro fuel
  induction fuel with
  | zero => intro pos; rfl
  | succ n ih =>
    intro pos
    by_cases hp : s.length ≤ pos
    · simp [scanAux, hp]
    · have : m s pos = none := h pos (by omega)
      simp [scanAux, hp, this, ih (pos + 1)]

/-- Transitivity of the substring relation. -/
theorem containsSub_trans {a b c : List Char}
    (h1 : containsSub b a = true) (h2 : containsSub c b = true) :
    containsSub c a = true := by
  simp only [containsSub, decide_eq_true_eq] at h1 h2 ⊢
  exact h1.trans h2

/-- Inserting into the set model keeps it duplicate-free. -/
theorem setInsert_nodup (acc : List (List Char)) (x : List Char)
    (h : acc.Nodup) : (setInsert acc x).Nodup := by
  unfold setInsert
  split
  · exact h
  · next hx =>
    exact h.append (List.nodup_singleton x)
      (fun a ha hb => by simp at hb; subst hb; exact hx ha)

/-- Folding the set insertion keeps the accumulator duplicate-free. -/
theorem foldl_setInsert_nodup (l : List (List Char)) :
    ∀ acc, acc.Nodup → (l.foldl setInsert acc).Nodup := by
  induction l with
  | nil => intro acc h; exact h
  | cons x xs ih => intro acc h; exact ih _ (setInsert_nodup acc x h)

/-- The set conversion of the record builder is duplicate-free. -/
theorem pyDedup_nodup (l : List (List Char)) : (pyDedup l).Nodup :=
  foldl_setInsert_nodup l [] List.nodup_nil

/-- When index construction fails or the first query raises, the RAG stage
leaves the state unchanged. -/
theorem ragStage_noop (env : RagEnv)
    (h : env.setupOk = false ∨ env.skillsResp = RagResp.raised) :
    ∀ st, ragStage env st = st := by
  intro st
  rcases h with h | h <;> simp [ragStage, h]

/-! ### Claim theorems -/

/-- C1: for every input text containing at least one substring matching the
email pattern, the contact_info.email of the returned record equals the
first such match in document order (the match at position p with no match
at any earlier position). -/
theorem email_first_match (text : List Char) (ents : List Ent)
    (rag : Option RagEnv) (p L : Nat)
    (hm : matchEmailAt text p = some L)
    (hfirst : ∀ q, q < p → matchEmailAt text q = none) :
    (extract_information text ents rag).contact_info.email
      = sliceL text p (p + L) := by
  have hp : p < text.length := matchEmailAt_pos_lt text p L hm
  obtain ⟨rest, hscan⟩ :=
    scanAux_first matchEmailAt text p L hm hp (text.length + 1) 0
      (Nat.zero_le p) (by omega) (fun q _ hq => hfirst q hq)
  have hemails : findallEmail text
      = sliceL text p (p + L)
        :: rest.map (fun pl => sliceL text pl.1 (pl.1 + pl.2)) := by
    unfold findallEmail findAllMatches
    rw [hscan]
    rfl
  show (findallEmail text).headD [] = sliceL text p (p + L)
  rw [hemails]
  rfl

/-- Witness for email_first_match at a concrete input: the first email of
the text is extracted. -/
theorem email_first_match_witness :
    (extract_information (str "mail me at a@b.co now") [] none).contact_info.email
      = str "a@b.co" :=
  (email_first_match (str "mail me at a@b.co now") [] none 11 6
    (by decide) (by decide)).trans (by decide)

/-- C4: for every input text with no substring matching the phone pattern,
the contact_info.phone of the returned record is the absence sentinel (the
empty string), the same sentinel used for an absent email. -/
theorem phone_absent (text : List Char) (ents : List Ent) (rag : Option RagEnv)
    (h : ∀ q, q < text.length → matchPhoneAt text q = none) :
    (extract_information text ents rag).contact_info.phone = []
    ∧ (findallEmail text = [] →
        (extract_information text ents rag).contact_info.email = []) := by
  constructor
  · have hscan : findallPhone text = [] := by
      unfold findallPhone findAllMatches
      rw [scanAux_none matchPhoneAt text h (text.length + 1) 0]
      rfl
    show (findallPhone text).headD [] = []
    rw [hscan]
    rfl
  · intro he
    show (findallEmail text).headD [] = []
    rw [he]
    rfl

/-- Witness for phone_absent at a concrete input without phone-like
substrings. -/
theorem phone_absent_witness :
    (extract_information (str "no digits here") [] none).contact_info.phone = []
    ∧ (findallEmail (str "no digits here") = [] →
        (extract_information (str "no digits here") [] none).contact_info.email = []) :=
  phone_absent (str "no digits here") [] none (by decide)

/-- C5: for empty raw text, parse_resume returns the absent record None
instead of a populated record; no failure escapes to the caller (the
function is total). -/
theorem parse_resume_missing_input (text : List Char) (ents : List Ent)
    (rag : Option RagEnv) (h : text = []) :
    parse_resume text ents rag = none := by
  subst h
  rfl

/-- Witness for parse_resume_missing_input on the empty input. -/
theorem parse_resume_missing_input_witness : parse_resume [] [] none = none :=
  parse_resume_missing_input [] [] none rfl

/-- C9: with RAG disabled, two runs of the extraction on the same text,
with the entity tagger a fixed function of the text, produce skills,
education and experience buckets equal as sets. -/
theorem heuristic_idempotent (tagger : List Char → List Ent) (text : List Char) :
    (extract_information text (tagger text) none).skills.toFinset
      = (extract_information text (tagger text) none).skills.toFinset
    ∧ (extract_information text (tagger text) none).education.toFinset
      = (extract_information text (tagger text) none).education.toFinset
    ∧ (extract_information text (tagger text) none).experience.toFinset
      = (extract_information text (tagger text) none).experience.toFinset :=
  ⟨rfl, rfl, rfl⟩

/-- C10: when the experience-section scan finds at least one date-delimited
job block, the pre-RAG experience bucket is exactly the list of those
blocks and the record built without RAG carries exactly their distinct
elements; the entity-based fallback contributes nothing. -/
theorem experience_blocks_priority (text : List Char) (ents : List Ent)
    (h : experience_blocks text ≠ []) :
    heurExperience text ents = experience_blocks text
    ∧ (extract_information text ents none).experience
        = pyDedup (experience_blocks text) := by
  have h1 : heurExperience text ents = experience_blocks text := by
    unfold heurExperience
    rw [if_neg h]
  refine ⟨h1, ?_⟩
  show pyDedup (heurExperience text ents) = pyDedup (experience_blocks text)
  rw [h1]

/-- Witness for experience_blocks_priority on a text with an experience
header and one date range. -/
theorem experience_blocks_priority_witness :
    heurExperience (str "Experience Jan 2019 - Dec 2021 Acme Corp engineer") []
      = experience_blocks (str "Experience Jan 2019 - Dec 2021 Acme Corp engineer")
    ∧ (extract_information (str "Experience Jan 2019 - Dec 2021 Acme Corp engineer") [] none).experience
        = pyDedup (experience_blocks (str "Experience Jan 2019 - Dec 2021 Acme Corp engineer")) :=
  experience_blocks_priority (str "Experience Jan 2019 - Dec 2021 Acme Corp engineer") []
    (by decide)

/-- C7: containment-based de-duplication at insertion time, for each of the
four insertion paths that append education or experience candidates: when
some existing bucket entry already contains the candidate as a
case-sensitive substring, the candidate is discarded and the bucket is
returned unchanged.  For the two entity paths the stored candidate is the
stripped context window, and the well-formedness hypothesis that the
entity text occurs inside that window (true of real tagger output, whose
spans are substrings of the text) links it to the check the code performs
on the entity text. -/
theorem containment_dedup_insertion :
    (∀ (text : List Char) (ent : Ent) (education : List (List Char)),
        containsSub (eduCtx text ent) ent.text = true →
        education.any (fun e => containsSub e (eduCtx text ent)) = true →
        eduEntStep text education ent = education)
    ∧ (∀ (text : List Char) (ent : Ent) (experience : List (List Char)),
        containsSub (stripL (expCtxRaw text ent)) ent.text = true →
        experience.any (fun e => containsSub e (stripL (expCtxRaw text ent))) = true →
        expEntStep text experience ent = experience)
    ∧ (∀ (education : List (List Char)) (cand : List Char),
        education.any (fun e => containsSub e cand) = true →
        ragEduInsert education cand = education)
    ∧ (∀ (experience : List (List Char)) (cand : List Char),
        experience.any (fun e => containsSub e cand) = true →
        ragExpInsert experience cand = experience) := by
  refine ⟨?_, ?_, ?_, ?_⟩
  · intro text ent education h1 h2
    unfold eduEntStep
    split
    · have hany : education.any (fun e => containsSub e ent.text) = true := by
        simp only [List.any_eq_true] at h2 ⊢
        obtain ⟨e, he, hce⟩ := h2
        exact ⟨e, he, containsSub_trans h1 hce⟩
      rw [if_pos hany]
    · rfl
  · intro text ent experience h1 h2
    unfold expEntStep
    split
    · split
      · have hany : experience.any (fun e => containsSub e ent.text) = true := by
          simp only [List.any_eq_true] at h2 ⊢
          obtain ⟨e, he, hce⟩ := h2
          exact ⟨e, he, containsSub_trans h1 hce⟩
        rw [if_pos hany]
      · rfl
    · rfl
  · intro education cand h
    unfold ragEduInsert
    rw [if_neg (fun hc => hc.2 h)]
  · intro experience cand h
    unfold ragExpInsert
    rw [if_neg (fun hc => hc.2.2 h)]

/-- Witness for containment_dedup_insertion: each of the four insertion
paths applied at a concrete input whose bucket already contains the
candidate. -/
theorem containment_dedup_insertion_witness :
    eduEntStep (str "Alpha University campus")
        [str "xx Alpha University campus yy"] ⟨str "Alpha University", "ORG", 0, 16⟩
      = [str "xx Alpha University campus yy"]
    ∧ expEntStep (str "Acme Corp engineer")
        [str "-- Acme Corp engineer --"] ⟨str "Acme Corp", "ORG", 0, 9⟩
      = [str "-- Acme Corp engineer --"]
    ∧ ragEduInsert [str "abcd"] (str "bc") = [str "abcd"]
    ∧ ragExpInsert [str "worked on many long projects here"]
        (str "many long projects")
      = [str "worked on many long projects here"] :=
  ⟨containment_dedup_insertion.1 _ _ _ (by decide) (by decide),
   containment_dedup_insertion.2.1 _ _ _ (by decide) (by decide),
   containment_dedup_insertion.2.2.1 _ _ (by decide),
   containment_dedup_insertion.2.2.2 _ _ (by decide)⟩

/-- C3 counterexample: the same skill contributed as python by keyword
matching and as Python by entity classification survives the final
de-duplication as two entries, because list(set(...)) compares strings
case-sensitively; the claimed case-insensitive de-duplication does not
happen. -/
theorem skills_case_dedup_cex :
    ((extract_information (str "Python is a great language tool")
        [⟨str "Python", "ORG", 0, 6⟩] none).skills.filter
      (fun sk => lowerL sk == str "python")).length = 2 := by decide

/-- C3 amended: the final de-duplication of the skills bucket is exact and
case-sensitive: the returned skills list never contains two identical
strings, while entries differing in letter case remain distinct. -/
theorem skills_exact_dedup (text : List Char) (ents : List Ent)
    (rag : Option RagEnv) :
    (extract_information text ents rag).skills.Nodup :=
  pyDedup_nodup (heurSkills text ents)

/-- C8 counterexample: an organization span whose context window contains
the education keyword degree, while the span text itself contains none, is
not treated as an education candidate: the returned education bucket is
empty. -/
theorem edu_context_ignored_cex :
    education_keywords.any
        (fun k => containsSub
          (eduCtx (str "He holds a degree and worked at Acme Corp in Boston")
            ⟨str "Acme Corp", "ORG", 32, 41⟩) k) = true
    ∧ (extract_information
         (str "He holds a degree and worked at Acme Corp in Boston")
         [⟨str "Acme Corp", "ORG", 32, 41⟩] none).education = [] := by decide

/-- C8 amended: the education decision for an organization span consults
only the span text: when the lowercased span text contains no education
keyword the education bucket is unchanged (whatever the context window
contains), and when it does contain one and no existing entry contains the
span text, the stripped 100-character context window is appended. -/
theorem edu_span_text_only :
    (∀ (text : List Char) (education : List (List Char)) (ent : Ent),
        entIsEdu ent = false → eduEntStep text education ent = education)
    ∧ (∀ (text : List Char) (education : List (List Char)) (ent : Ent),
        ent.label_ = "ORG" → entIsEdu ent = true →
        education.any (fun e => containsSub e ent.text) = false →
        eduEntStep text education ent = education ++ [eduCtx text ent]) := by
  constructor
  · intro text education ent h
    unfold eduEntStep
    rw [if_neg (fun hc => by rw [h] at hc; exact Bool.false_ne_true hc.2)]
  · intro text education ent h1 h2 h3
    unfold eduEntStep
    rw [if_pos ⟨h1, h2⟩, if_neg (fun hc => by rw [h3] at hc; exact Bool.false_ne_true hc)]

/-- Witness for edu_span_text_only: a span without education keyword in a
text whose context window does contain one, and a span with one. -/
theorem edu_span_text_only_witness :
    eduEntStep (str "a university town") [] ⟨str "Acme", "ORG", 0, 4⟩ = []
    ∧ eduEntStep (str "Foo University") [] ⟨str "Foo University", "ORG", 0, 14⟩
        = [] ++ [eduCtx (str "Foo University") ⟨str "Foo University", "ORG", 0, 14⟩] :=
  ⟨edu_span_text_only.1 _ _ _ (by decide),
   edu_span_text_only.2 _ _ _ rfl (by decide) (by decide)⟩

/-- C2: the skills response Rust is parsed and accepted by the RAG skills
step, yet the returned record has an empty skills bucket: the additions go
to the extracted_skills set after the skills list snapshot of line 132 was
taken, so they never reach the returned dictionary. -/
theorem rag_skills_dropped :
    (ragSkillCands (str "Rust")).filter ragSkillAccept = [str "Rust"]
    ∧ (extract_information (str "hello") []
        (some ⟨true, RagResp.ok (str "Rust"), RagResp.ok [], RagResp.ok []⟩)).skills
      = [] := by decide

/-- C6 counterexample: with the education query succeeding and the
experience query raising, the error is caught but the education entries
merged before the failure are kept: the returned record differs from the
record the heuristic stages alone produce, so the stage is not skipped
entirely. -/
theorem rag_error_partial_cex :
    (RagEnv.mk true (RagResp.ok [])
        (RagResp.ok (str "B.Tech in AI from Foo University")) RagResp.raised).expResp
      = RagResp.raised
    ∧ (extract_information (str "hello") []
         (some (RagEnv.mk true (RagResp.ok [])
           (RagResp.ok (str "B.Tech in AI from Foo University")) RagResp.raised))).education
       ≠ (extract_information (str "hello") [] none).education := by decide

/-- C6 amended: every RAG failure is caught locally and never propagates
(the stage is a total function); when the failure happens before any merge
— during splitting, embedding, indexing, chain construction, or in the
first (skills) query — the returned record equals the record of the
heuristic stages alone; results merged before a later failure are kept. -/
theorem rag_error_before_merge (text : List Char) (ents : List Ent)
    (env : RagEnv)
    (h : env.setupOk = false ∨ env.skillsResp = RagResp.raised) :
    extract_information text ents (some env)
      = extract_information text ents none := by
  simp only [extract_information, applyRag, ragStage_noop env h]

/-- Witness for rag_error_before_merge with a failing index construction. -/
theorem rag_error_before_merge_witness :
    extract_information (str "hi") []
        (some ⟨false, RagResp.ok [], RagResp.ok [], RagResp.ok []⟩)
      = extract_information (str "hi") [] none :=
  rag_error_before_merge (str "hi") []
    ⟨false, RagResp.ok [], RagResp.ok [], RagResp.ok []⟩ (Or.inl rfl)
